import Mathlib

/-!
Verification of `src/channel.js` from dicom-microscopy-viewer: the
`BlendingInformation` and `Channel` classes, whose constructors validate their
inputs and either produce a fully-formed instance or throw.

JavaScript values relevant to the constructors are embedded as `JSVal`:
`undefined`, `null`, booleans, numbers, strings and arrays. A thrown
`new Error(msg)` is embedded as `JSException.thrown msg`; a spread of a
non-iterable (which JavaScript rejects with a TypeError) as
`JSException.typeError`. JavaScript string semantics are kept faithful where
they matter: the `length` property of a string counts UTF-16 code units,
while spreading a string iterates code points.
-/

/-- Embedding of the JavaScript values that can reach the two constructors. -/
inductive JSVal where
  | undef : JSVal
  | null : JSVal
  | bool : Bool → JSVal
  | num : Int → JSVal
  | str : String → JSVal
  | arr : List JSVal → JSVal

/-- JavaScript loose equality with null: `x == null` holds exactly for
`null` and `undefined`. -/
def JSVal.looseEqNull : JSVal → Bool
  | .undef => true
  | .null => true
  | _ => false

/-- JavaScript strict equality with undefined: `x === undefined`. -/
def JSVal.isUndefined : JSVal → Bool
  | .undef => true
  | _ => false

/-- Embedding of `Array.isArray`. -/
def JSVal.isArray : JSVal → Bool
  | .arr _ => true
  | _ => false

/-- Number of UTF-16 code units a character occupies in a JavaScript string. -/
def charUtf16Len (c : Char) : Nat :=
  if c.val < 65536 then 1 else 2

/-- Length of a JavaScript string: the number of UTF-16 code units. -/
def jsStringLength (s : String) : Nat :=
  (s.data.map charUtf16Len).sum

/-- Embedding of the `.length` property access as it occurs in the
constructor: `some n` when the property is a number (arrays and strings),
`none` when it is `undefined` (numbers, booleans). The constructor never
reads `.length` of `null` or `undefined` (the preceding presence check
rules them out). -/
def JSVal.lengthProp : JSVal → Option Int
  | .arr l => some l.length
  | .str s => some (jsStringLength s)
  | _ => none

/-- Embedding of array spread `[...v]`: a copy of an array's elements, the
code points of a string, and `none` (TypeError) for non-iterables. -/
def JSVal.spreadElems : JSVal → Option (List JSVal)
  | .arr l => some l
  | .str s => some (s.data.map (fun c => JSVal.str (String.mk [c])))
  | _ => none

/-- An exception escaping a constructor: `new Error(msg)` or the TypeError
raised by spreading a non-iterable. -/
inductive JSException where
  | thrown : String → JSException
  | typeError : JSException
deriving DecidableEq

/-- The error messages the spec classifies as `MissingFieldError`: a required
field was not supplied. -/
def missingFieldMessages : List String :=
  ["Color is required.",
   "Threshold values are required.",
   "Limit values are required.",
   "Optical Path Identifier is required.",
   "Study Instance UID is required.",
   "Series Instance UID is required.",
   "SOP Instance UIDs are required."]

/-- The error messages the spec classifies as `ShapeError`: a supplied field
has the wrong container type or wrong element count. -/
def shapeMessages : List String :=
  ["Color must be provided as an array.",
   "An RGB color triplet must be provided.",
   "Threshold values must be provided as an array.",
   "Two threshold values must be provided.",
   "Limit values must be provided as an array.",
   "Two limit values must be provided."]

/-- Whether an exception is a `MissingFieldError` in the spec's taxonomy. -/
def JSException.isMissingFieldError : JSException → Bool
  | .thrown m => missingFieldMessages.contains m
  | .typeError => false

/-- Whether an exception is a `ShapeError` in the spec's taxonomy. -/
def JSException.isShapeError : JSException → Bool
  | .thrown m => shapeMessages.contains m
  | .typeError => false

/-- The options record destructured by the `BlendingInformation` constructor;
a key absent from the caller's object destructures to `undefined`. -/
structure BlendingOptions where
  opticalPathIdentifier : JSVal
  color : JSVal
  opacity : JSVal
  thresholdValues : JSVal
  limitValues : JSVal
  visible : JSVal

/-- A constructed `BlendingInformation` instance: the three array-shaped
fields hold the element lists produced by the spreads. -/
structure BlendingInformation where
  opticalPathIdentifier : JSVal
  color : List JSVal
  opacity : JSVal
  thresholdValues : List JSVal
  limitValues : List JSVal
  visible : JSVal

/-- The `BlendingInformation` constructor, line for line from the source.
Note the second `limitValues` check tests `Array.isArray(thresholdValues)`,
exactly as the observed source does. -/
def BlendingInformation.construct (o : BlendingOptions) :
    Except JSException BlendingInformation :=
  if o.color.looseEqNull then
    .error (.thrown "Color is required.")
  else if !o.color.isArray then
    .error (.thrown "Color must be provided as an array.")
  else if o.color.lengthProp != some 3 then
    .error (.thrown "An RGB color triplet must be provided.")
  else match o.color.spreadElems with
  | none => .error .typeError
  | some colorStored =>
    if o.thresholdValues.looseEqNull then
      .error (.thrown "Threshold values are required.")
    else if !o.thresholdValues.isArray then
      .error (.thrown "Threshold values must be provided as an array.")
    else if o.thresholdValues.lengthProp != some 2 then
      .error (.thrown "Two threshold values must be provided.")
    else match o.thresholdValues.spreadElems with
    | none => .error .typeError
    | some thresholdStored =>
      if o.limitValues.looseEqNull then
        .error (.thrown "Limit values are required.")
      else if !o.thresholdValues.isArray then
        .error (.thrown "Limit values must be provided as an array.")
      else if o.limitValues.lengthProp != some 2 then
        .error (.thrown "Two limit values must be provided.")
      else match o.limitValues.spreadElems with
      | none => .error .typeError
      | some limitStored =>
        .ok { opticalPathIdentifier := o.opticalPathIdentifier,
              color := colorStored,
              opacity := o.opacity,
              thresholdValues := thresholdStored,
              limitValues := limitStored,
              visible := o.visible }

/-- The options record destructured by the `Channel` constructor. -/
structure ChannelOptions where
  opticalPathIdentifier : JSVal
  studyInstanceUID : JSVal
  seriesInstanceUID : JSVal
  sopInstanceUIDs : JSVal

/-- A constructed `Channel` instance; the four projections model both the
hidden `_channelAttrs` storage and the four read-only getters, which return
the stored values unchanged. -/
structure Channel where
  opticalPathIdentifier : JSVal
  studyInstanceUID : JSVal
  seriesInstanceUID : JSVal
  sopInstanceUIDs : JSVal

/-- The `Channel` constructor, line for line from the source: each field is
checked against `undefined` with strict equality and stored as given. -/
def Channel.construct (o : ChannelOptions) : Except JSException Channel :=
  if o.opticalPathIdentifier.isUndefined then
    .error (.thrown "Optical Path Identifier is required.")
  else if o.studyInstanceUID.isUndefined then
    .error (.thrown "Study Instance UID is required.")
  else if o.seriesInstanceUID.isUndefined then
    .error (.thrown "Series Instance UID is required.")
  else if o.sopInstanceUIDs.isUndefined then
    .error (.thrown "SOP Instance UIDs are required.")
  else
    .ok { opticalPathIdentifier := o.opticalPathIdentifier,
          studyInstanceUID := o.studyInstanceUID,
          seriesInstanceUID := o.seriesInstanceUID,
          sopInstanceUIDs := o.sopInstanceUIDs }

/-- The element list a successful construction stores for a field (the
spread's result; junk `[]` on values the success path never spreads). -/
def JSVal.storedCopy (v : JSVal) : List JSVal := v.spreadElems.getD []

/-- The instance a fully successful `BlendingInformation` construction
produces, expressed field by field. -/
def mkStoredBlending (o : BlendingOptions) : BlendingInformation :=
  { opticalPathIdentifier := o.opticalPathIdentifier,
    color := o.color.storedCopy,
    opacity := o.opacity,
    thresholdValues := o.thresholdValues.storedCopy,
    limitValues := o.limitValues.storedCopy,
    visible := o.visible }

/-- The nine validation checks of the `BlendingInformation` constructor in
source order, each paired with the message it throws when it fires. The
eighth check tests `thresholdValues`, as the observed source does. -/
def blendingChecks (o : BlendingOptions) : List (Bool × String) :=
  [(o.color.looseEqNull, "Color is required."),
   (!o.color.isArray, "Color must be provided as an array."),
   (o.color.lengthProp != some 3, "An RGB color triplet must be provided."),
   (o.thresholdValues.looseEqNull, "Threshold values are required."),
   (!o.thresholdValues.isArray, "Threshold values must be provided as an array."),
   (o.thresholdValues.lengthProp != some 2, "Two threshold values must be provided."),
   (o.limitValues.looseEqNull, "Limit values are required."),
   (!o.thresholdValues.isArray, "Limit values must be provided as an array."),
   (o.limitValues.lengthProp != some 2, "Two limit values must be provided.")]

/-- The message of the first failing check, if any. -/
def firstFailingBlending (o : BlendingOptions) : Option String :=
  ((blendingChecks o).find? (fun p => p.1)).map (fun p => p.2)

lemma JSVal.eq_arr_of_isArray {v : JSVal} (h : v.isArray = true) :
    ∃ l, v = JSVal.arr l := by
  cases v <;> first
    | exact ⟨_, rfl⟩
    | simp [JSVal.isArray] at h

lemma JSVal.spreadElems_isSome_of_lengthProp {v : JSVal} {n : Int}
    (h : v.lengthProp = some n) : ∃ l, v.spreadElems = some l := by
  cases v <;> first
    | exact ⟨_, rfl⟩
    | simp [JSVal.lengthProp] at h

/-- The `BlendingInformation` constructor equals its check-list
specification: it throws the message of the first failing check in source
order, and when no check fails it returns the instance assembled from the
spreads. -/
lemma construct_spec (o : BlendingOptions) :
    BlendingInformation.construct o =
      (match firstFailingBlending o with
        | some m => Except.error (JSException.thrown m)
        | none => Except.ok (mkStoredBlending o)) := by
  unfold BlendingInformation.construct firstFailingBlending blendingChecks
  cases h1 : o.color.looseEqNull
  · cases h2 : o.color.isArray
    · simp [List.find?, h1, h2]
    · obtain ⟨cl, hcl⟩ := JSVal.eq_arr_of_isArray h2
      have hspc : o.color.spreadElems = some cl := by rw [hcl]; rfl
      cases h3 : (o.color.lengthProp != some 3)
      · have h3p : o.color.lengthProp = some 3 := by simpa using h3
        cases h4 : o.thresholdValues.looseEqNull
        · cases h5 : o.thresholdValues.isArray
          · simp [List.find?, h1, h2, h3, h3p, h4, h5, hspc]
          · obtain ⟨tl, htl⟩ := JSVal.eq_arr_of_isArray h5
            have hspt : o.thresholdValues.spreadElems = some tl := by
              rw [htl]; rfl
            cases h6 : (o.thresholdValues.lengthProp != some 2)
            · have h6p : o.thresholdValues.lengthProp = some 2 := by
                simpa using h6
              cases h7 : o.limitValues.looseEqNull
              · cases h9 : (o.limitValues.lengthProp != some 2)
                · have h9p : o.limitValues.lengthProp = some 2 := by
                    simpa using h9
                  obtain ⟨ll, hll⟩ :=
                    JSVal.spreadElems_isSome_of_lengthProp h9p
                  simp [List.find?, h1, h2, h3, h3p, h4, h5, h6, h6p, h7, h9,
                        h9p, hspc, hspt, hll, mkStoredBlending,
                        JSVal.storedCopy]
                · simp [List.find?, h1, h2, h3, h3p, h4, h5, h6, h6p, h7, h9,
                        hspc, hspt]
              · simp [List.find?, h1, h2, h3, h3p, h4, h5, h6, h6p, h7, hspc,
                      hspt]
            · simp [List.find?, h1, h2, h3, h3p, h4, h5, h6, hspc, hspt]
        · simp [List.find?, h1, h2, h3, h3p, h4, hspc]
      · simp [List.find?, h1, h2, h3, hspc]
  · simp [List.find?, h1]

/-- A construction attempt that failed with an error the spec classifies as
`MissingFieldError`. -/
def failsMissing {α : Type} (r : Except JSException α) : Prop :=
  ∃ e, r = Except.error e ∧ e.isMissingFieldError = true

/-- A construction attempt that failed with an error the spec classifies as
`ShapeError`. -/
def failsShape {α : Type} (r : Except JSException α) : Prop :=
  ∃ e, r = Except.error e ∧ e.isShapeError = true

/-- The error of a construction attempt, if any. -/
def errOf {α : Type} : Except JSException α → Option JSException
  | .error e => some e
  | .ok _ => none

/-- The supplied color passes both of its shape checks: it is an array of
exactly three elements. -/
def colorShapeOK (o : BlendingOptions) : Bool :=
  o.color.isArray && (o.color.lengthProp == some 3)

/-- The supplied thresholdValues passes both of its shape checks: it is an
array of exactly two elements. -/
def thresholdShapeOK (o : BlendingOptions) : Bool :=
  o.thresholdValues.isArray && (o.thresholdValues.lengthProp == some 2)

lemma JSVal.looseEqNull_eq_false_of_isArray {v : JSVal}
    (h : v.isArray = true) : v.looseEqNull = false := by
  cases v <;> simp_all [JSVal.isArray, JSVal.looseEqNull]

/-- C3: `Channel` construction fails with a `MissingFieldError` if and only
if at least one of the four fields is the not-provided sentinel `undefined`;
every failure is a `MissingFieldError` (so an empty string or empty sequence
is accepted), and a failed construction produces no instance. -/
theorem channel_missingFieldError_iff (o : ChannelOptions) :
    (failsMissing (Channel.construct o) ↔
      (o.opticalPathIdentifier.isUndefined = true ∨
       o.studyInstanceUID.isUndefined = true ∨
       o.seriesInstanceUID.isUndefined = true ∨
       o.sopInstanceUIDs.isUndefined = true)) ∧
    (∀ e, Channel.construct o = Except.error e →
      e.isMissingFieldError = true) ∧
    (failsMissing (Channel.construct o) →
      ∀ c, Channel.construct o ≠ Except.ok c) := by
  cases h1 : o.opticalPathIdentifier.isUndefined <;>
    cases h2 : o.studyInstanceUID.isUndefined <;>
      cases h3 : o.seriesInstanceUID.isUndefined <;>
        cases h4 : o.sopInstanceUIDs.isUndefined <;>
          simp [Channel.construct, failsMissing, h1, h2, h3, h4,
                JSException.isMissingFieldError, missingFieldMessages]

/-- C3 witness: an all-empty-values channel is accepted (no failure), and a
channel missing `sopInstanceUIDs` fails with a `MissingFieldError`. -/
theorem channel_missingFieldError_iff_witness :
    ¬ failsMissing (Channel.construct
      { opticalPathIdentifier := JSVal.str "",
        studyInstanceUID := JSVal.str "",
        seriesInstanceUID := JSVal.str "",
        sopInstanceUIDs := JSVal.arr [] }) ∧
    failsMissing (Channel.construct
      { opticalPathIdentifier := JSVal.str "Cy5",
        studyInstanceUID := JSVal.str "1.2.3",
        seriesInstanceUID := JSVal.str "1.2.3.4",
        sopInstanceUIDs := JSVal.undef }) := by
  constructor
  · intro h
    have := (channel_missingFieldError_iff
      { opticalPathIdentifier := JSVal.str "",
        studyInstanceUID := JSVal.str "",
        seriesInstanceUID := JSVal.str "",
        sopInstanceUIDs := JSVal.arr [] }).1.mp h
    simp [JSVal.isUndefined] at this
  · exact (channel_missingFieldError_iff
      { opticalPathIdentifier := JSVal.str "Cy5",
        studyInstanceUID := JSVal.str "1.2.3",
        seriesInstanceUID := JSVal.str "1.2.3.4",
        sopInstanceUIDs := JSVal.undef }).1.mpr (by simp [JSVal.isUndefined])

/-- C4: when all four `Channel` fields are present, construction succeeds
and each of the four accessors returns exactly the value supplied to the
constructor, unchanged. -/
theorem channel_accessors_exact (o : ChannelOptions)
    (h1 : o.opticalPathIdentifier.isUndefined = false)
    (h2 : o.studyInstanceUID.isUndefined = false)
    (h3 : o.seriesInstanceUID.isUndefined = false)
    (h4 : o.sopInstanceUIDs.isUndefined = false) :
    ∃ c, Channel.construct o = Except.ok c ∧
      c.opticalPathIdentifier = o.opticalPathIdentifier ∧
      c.studyInstanceUID = o.studyInstanceUID ∧
      c.seriesInstanceUID = o.seriesInstanceUID ∧
      c.sopInstanceUIDs = o.sopInstanceUIDs :=
  ⟨{ opticalPathIdentifier := o.opticalPathIdentifier,
     studyInstanceUID := o.studyInstanceUID,
     seriesInstanceUID := o.seriesInstanceUID,
     sopInstanceUIDs := o.sopInstanceUIDs },
   by simp [Channel.construct, h1, h2, h3, h4], rfl, rfl, rfl, rfl⟩

/-- C4 witness: the spec's concrete scenario 1, with the element order of
`sopInstanceUIDs` visible in the result. -/
theorem channel_accessors_exact_witness :
    ∃ c, Channel.construct
      { opticalPathIdentifier := JSVal.str "Cy5",
        studyInstanceUID := JSVal.str "1.2.3",
        seriesInstanceUID := JSVal.str "1.2.3.4",
        sopInstanceUIDs := JSVal.arr [JSVal.str "1.2.3.4.5",
                                      JSVal.str "1.2.3.4.6"] } =
        Except.ok c ∧
      c.opticalPathIdentifier = JSVal.str "Cy5" ∧
      c.studyInstanceUID = JSVal.str "1.2.3" ∧
      c.seriesInstanceUID = JSVal.str "1.2.3.4" ∧
      c.sopInstanceUIDs = JSVal.arr [JSVal.str "1.2.3.4.5",
                                     JSVal.str "1.2.3.4.6"] :=
  channel_accessors_exact _ rfl rfl rfl rfl

/-- C9: construction is atomic for both constructors: every input yields
either an instance or an error, exclusively, so a thrown failure means no
instance exists. -/
theorem construction_atomic (ob : BlendingOptions) (oc : ChannelOptions) :
    ((∃ b, BlendingInformation.construct ob = Except.ok b) ↔
      ¬ ∃ e, BlendingInformation.construct ob = Except.error e) ∧
    ((∃ c, Channel.construct oc = Except.ok c) ↔
      ¬ ∃ e, Channel.construct oc = Except.error e) := by
  constructor
  · cases h : BlendingInformation.construct ob <;> simp [h]
  · cases h : Channel.construct oc <;> simp [h]

lemma colorShapeOK_spec {o : BlendingOptions} (h : colorShapeOK o = true) :
    o.color.isArray = true ∧ o.color.lengthProp = some 3 := by
  unfold colorShapeOK at h
  simpa using h

lemma thresholdShapeOK_spec {o : BlendingOptions}
    (h : thresholdShapeOK o = true) :
    o.thresholdValues.isArray = true ∧
      o.thresholdValues.lengthProp = some 2 := by
  unfold thresholdShapeOK at h
  simpa using h

lemma construct_error_of_missing_color {o : BlendingOptions}
    (h : o.color.looseEqNull = true) :
    BlendingInformation.construct o =
      Except.error (JSException.thrown "Color is required.") := by
  rw [construct_spec]
  have hf : firstFailingBlending o = some "Color is required." := by
    unfold firstFailingBlending blendingChecks
    simp [List.find?, h]
  rw [hf]

lemma construct_error_of_missing_threshold {o : BlendingOptions}
    (hc : colorShapeOK o = true) (h : o.thresholdValues.looseEqNull = true) :
    BlendingInformation.construct o =
      Except.error (JSException.thrown "Threshold values are required.") := by
  obtain ⟨hA, hL⟩ := colorShapeOK_spec hc
  have hN := JSVal.looseEqNull_eq_false_of_isArray hA
  rw [construct_spec]
  have hf : firstFailingBlending o = some "Threshold values are required." := by
    unfold firstFailingBlending blendingChecks
    simp [List.find?, hN, hA, hL, h]
  rw [hf]

lemma construct_error_of_missing_limit {o : BlendingOptions}
    (hc : colorShapeOK o = true) (ht : thresholdShapeOK o = true)
    (h : o.limitValues.looseEqNull = true) :
    BlendingInformation.construct o =
      Except.error (JSException.thrown "Limit values are required.") := by
  obtain ⟨hA, hL⟩ := colorShapeOK_spec hc
  obtain ⟨htA, htL⟩ := thresholdShapeOK_spec ht
  have hN := JSVal.looseEqNull_eq_false_of_isArray hA
  have htN := JSVal.looseEqNull_eq_false_of_isArray htA
  rw [construct_spec]
  have hf : firstFailingBlending o = some "Limit values are required." := by
    unfold firstFailingBlending blendingChecks
    simp [List.find?, hN, hA, hL, htN, htA, htL, h]
  rw [hf]

/-- C2: for every `BlendingInformation` construction, the first failing
check in the fixed source order — color presence, color is-a-sequence,
color has 3 elements, thresholdValues presence, thresholdValues
is-a-sequence, thresholdValues has 2 elements, limitValues presence, the
is-a-sequence check performed against thresholdValues, limitValues has 2
elements — determines the error raised; when no check fails, construction
succeeds; opacity and visible participate in no check. -/
theorem blending_check_order (o : BlendingOptions) :
    (∀ m, firstFailingBlending o = some m →
      BlendingInformation.construct o =
        Except.error (JSException.thrown m)) ∧
    (firstFailingBlending o = none →
      ∃ b, BlendingInformation.construct o = Except.ok b) ∧
    (∀ p v, errOf (BlendingInformation.construct
        { o with opacity := p, visible := v }) =
      errOf (BlendingInformation.construct o)) := by
  refine ⟨?_, ?_, ?_⟩
  · intro m hm
    rw [construct_spec, hm]
  · intro hm
    rw [construct_spec, hm]
    exact ⟨_, rfl⟩
  · intro p v
    rw [construct_spec, construct_spec]
    have hsame : firstFailingBlending { o with opacity := p, visible := v } =
        firstFailingBlending o := rfl
    rw [hsame]
    cases firstFailingBlending o <;> simp [errOf]

/-- C2 witness: with every field absent, the first check in the order fires
and the raised error is exactly its message. -/
theorem blending_check_order_witness :
    BlendingInformation.construct
      { opticalPathIdentifier := JSVal.undef, color := JSVal.undef,
        opacity := JSVal.undef, thresholdValues := JSVal.undef,
        limitValues := JSVal.undef, visible := JSVal.undef } =
      Except.error (JSException.thrown "Color is required.") :=
  (blending_check_order
    { opticalPathIdentifier := JSVal.undef, color := JSVal.undef,
      opacity := JSVal.undef, thresholdValues := JSVal.undef,
      limitValues := JSVal.undef, visible := JSVal.undef }).1 _ rfl

/-- C5: omitting color, or omitting thresholdValues once color is valid, or
omitting limitValues once color and thresholdValues are valid, causes the
`BlendingInformation` constructor to fail with a `MissingFieldError`. -/
theorem blending_omitted_missingFieldError (o : BlendingOptions) :
    (o.color = JSVal.undef →
      failsMissing (BlendingInformation.construct o)) ∧
    (colorShapeOK o = true → o.thresholdValues = JSVal.undef →
      failsMissing (BlendingInformation.construct o)) ∧
    (colorShapeOK o = true → thresholdShapeOK o = true →
      o.limitValues = JSVal.undef →
      failsMissing (BlendingInformation.construct o)) := by
  refine ⟨?_, ?_, ?_⟩
  · intro h
    exact ⟨_, construct_error_of_missing_color (by rw [h]; rfl), by decide⟩
  · intro hc h
    exact ⟨_, construct_error_of_missing_threshold hc (by rw [h]; rfl),
           by decide⟩
  · intro hc ht h
    exact ⟨_, construct_error_of_missing_limit hc ht (by rw [h]; rfl),
           by decide⟩

/-- C5 witness: omitting `limitValues` while color and thresholdValues are
valid fails with a `MissingFieldError`. -/
theorem blending_omitted_missingFieldError_witness :
    failsMissing (BlendingInformation.construct
      { opticalPathIdentifier := JSVal.str "Cy5",
        color := JSVal.arr [JSVal.num 255, JSVal.num 0, JSVal.num 0],
        opacity := JSVal.num 1,
        thresholdValues := JSVal.arr [JSVal.num 0, JSVal.num 1],
        limitValues := JSVal.undef,
        visible := JSVal.bool true }) :=
  (blending_omitted_missingFieldError
    { opticalPathIdentifier := JSVal.str "Cy5",
      color := JSVal.arr [JSVal.num 255, JSVal.num 0, JSVal.num 0],
      opacity := JSVal.num 1,
      thresholdValues := JSVal.arr [JSVal.num 0, JSVal.num 1],
      limitValues := JSVal.undef,
      visible := JSVal.bool true }).2.2 rfl rfl rfl

/-- C8: `opticalPathIdentifier`, `opacity` and `visible` never cause a
`BlendingInformation` construction to fail — replacing them by any values
leaves the error outcome unchanged — and on success each of the three is
stored exactly as given. -/
theorem blending_unchecked_fields (o : BlendingOptions) :
    (∀ i p v, errOf (BlendingInformation.construct
        { o with opticalPathIdentifier := i, opacity := p, visible := v }) =
      errOf (BlendingInformation.construct o)) ∧
    (∀ b, BlendingInformation.construct o = Except.ok b →
      b.opticalPathIdentifier = o.opticalPathIdentifier ∧
      b.opacity = o.opacity ∧ b.visible = o.visible) := by
  constructor
  · intro i p v
    rw [construct_spec, construct_spec]
    have hsame : firstFailingBlending
        { o with opticalPathIdentifier := i, opacity := p, visible := v } =
        firstFailingBlending o := rfl
    rw [hsame]
    cases firstFailingBlending o <;> simp [errOf]
  · intro b hb
    rw [construct_spec] at hb
    cases hf : firstFailingBlending o <;> rw [hf] at hb
    · obtain rfl : mkStoredBlending o = b := by simpa using hb
      exact ⟨rfl, rfl, rfl⟩
    · simp at hb

/-- C8 witness: a construction with a wrong-typed opacity and an absent
visible still succeeds, storing both as given. -/
theorem blending_unchecked_fields_witness :
    BlendingInformation.construct
        { opticalPathIdentifier := JSVal.num 7,
          color := JSVal.arr [JSVal.num 255, JSVal.num 0, JSVal.num 0],
          opacity := JSVal.str "not a number",
          thresholdValues := JSVal.arr [JSVal.num 0, JSVal.num 1],
          limitValues := JSVal.arr [JSVal.num 0, JSVal.num 65535],
          visible := JSVal.undef } =
      Except.ok
        { opticalPathIdentifier := JSVal.num 7,
          color := [JSVal.num 255, JSVal.num 0, JSVal.num 0],
          opacity := JSVal.str "not a number",
          thresholdValues := [JSVal.num 0, JSVal.num 1],
          limitValues := [JSVal.num 0, JSVal.num 65535],
          visible := JSVal.undef } ∧
    JSVal.str "not a number" = JSVal.str "not a number" ∧
    JSVal.undef = JSVal.undef := by
  have h := (blending_unchecked_fields
    { opticalPathIdentifier := JSVal.num 7,
      color := JSVal.arr [JSVal.num 255, JSVal.num 0, JSVal.num 0],
      opacity := JSVal.str "not a number",
      thresholdValues := JSVal.arr [JSVal.num 0, JSVal.num 1],
      limitValues := JSVal.arr [JSVal.num 0, JSVal.num 65535],
      visible := JSVal.undef }).2
    { opticalPathIdentifier := JSVal.num 7,
      color := [JSVal.num 255, JSVal.num 0, JSVal.num 0],
      opacity := JSVal.str "not a number",
      thresholdValues := [JSVal.num 0, JSVal.num 1],
      limitValues := [JSVal.num 0, JSVal.num 65535],
      visible := JSVal.undef } rfl
  exact ⟨rfl, h.2.1, h.2.2⟩

/-- C10: the two constructors treat an explicit null differently:
`BlendingInformation` raises a `MissingFieldError` when color,
thresholdValues or limitValues is null (its presence check rejects both
null and undefined), whereas `Channel` rejects only undefined, so it
accepts null for any of its four fields, stores it, and returns it from
the accessor. -/
theorem null_handling_asymmetry (ob : BlendingOptions) (oc : ChannelOptions) :
    (ob.color = JSVal.null →
      failsMissing (BlendingInformation.construct ob)) ∧
    (colorShapeOK ob = true → ob.thresholdValues = JSVal.null →
      failsMissing (BlendingInformation.construct ob)) ∧
    (colorShapeOK ob = true → thresholdShapeOK ob = true →
      ob.limitValues = JSVal.null →
      failsMissing (BlendingInformation.construct ob)) ∧
    JSVal.null.isUndefined = false ∧
    (oc.opticalPathIdentifier.isUndefined = false →
      oc.studyInstanceUID.isUndefined = false →
      oc.seriesInstanceUID.isUndefined = false →
      oc.sopInstanceUIDs.isUndefined = false →
      ∃ c, Channel.construct oc = Except.ok c ∧
        c.opticalPathIdentifier = oc.opticalPathIdentifier ∧
        c.studyInstanceUID = oc.studyInstanceUID ∧
        c.seriesInstanceUID = oc.seriesInstanceUID ∧
        c.sopInstanceUIDs = oc.sopInstanceUIDs) := by
  refine ⟨?_, ?_, ?_, rfl, ?_⟩
  · intro h
    exact ⟨_, construct_error_of_missing_color (by rw [h]; rfl), by decide⟩
  · intro hc h
    exact ⟨_, construct_error_of_missing_threshold hc (by rw [h]; rfl),
           by decide⟩
  · intro hc ht h
    exact ⟨_, construct_error_of_missing_limit hc ht (by rw [h]; rfl),
           by decide⟩
  · intro h1 h2 h3 h4
    exact ⟨{ opticalPathIdentifier := oc.opticalPathIdentifier,
             studyInstanceUID := oc.studyInstanceUID,
             seriesInstanceUID := oc.seriesInstanceUID,
             sopInstanceUIDs := oc.sopInstanceUIDs },
           by simp [Channel.construct, h1, h2, h3, h4], rfl, rfl, rfl, rfl⟩

/-- C10 witness: a null color makes `BlendingInformation` fail with a
`MissingFieldError`, while a `Channel` whose four fields are all null is
accepted and returns null from each accessor. -/
theorem null_handling_asymmetry_witness :
    failsMissing (BlendingInformation.construct
      { opticalPathIdentifier := JSVal.str "Cy5", color := JSVal.null,
        opacity := JSVal.num 1,
        thresholdValues := JSVal.arr [JSVal.num 0, JSVal.num 1],
        limitValues := JSVal.arr [JSVal.num 0, JSVal.num 65535],
        visible := JSVal.bool true }) ∧
    (∃ c, Channel.construct
        { opticalPathIdentifier := JSVal.null,
          studyInstanceUID := JSVal.null,
          seriesInstanceUID := JSVal.null,
          sopInstanceUIDs := JSVal.null } = Except.ok c ∧
      c.opticalPathIdentifier = JSVal.null ∧
      c.studyInstanceUID = JSVal.null ∧
      c.seriesInstanceUID = JSVal.null ∧
      c.sopInstanceUIDs = JSVal.null) := by
  have h := null_handling_asymmetry
    { opticalPathIdentifier := JSVal.str "Cy5", color := JSVal.null,
      opacity := JSVal.num 1,
      thresholdValues := JSVal.arr [JSVal.num 0, JSVal.num 1],
      limitValues := JSVal.arr [JSVal.num 0, JSVal.num 65535],
      visible := JSVal.bool true }
    { opticalPathIdentifier := JSVal.null,
      studyInstanceUID := JSVal.null,
      seriesInstanceUID := JSVal.null,
      sopInstanceUIDs := JSVal.null }
  exact ⟨h.1 rfl, h.2.2.2.2 rfl rfl rfl rfl⟩

/-- The supplied limitValues would pass an array-of-two check: it is an
array of exactly two elements. -/
def limitShapeOK (o : BlendingOptions) : Bool :=
  o.limitValues.isArray && (o.limitValues.lengthProp == some 2)

lemma construct_ok_of_allOK {o : BlendingOptions}
    (hc : colorShapeOK o = true) (ht : thresholdShapeOK o = true)
    (hl : limitShapeOK o = true) :
    BlendingInformation.construct o = Except.ok (mkStoredBlending o) := by
  obtain ⟨hA, hL⟩ := colorShapeOK_spec hc
  obtain ⟨htA, htL⟩ := thresholdShapeOK_spec ht
  have hlA : o.limitValues.isArray = true ∧
      o.limitValues.lengthProp = some 2 := by
    unfold limitShapeOK at hl
    simpa using hl
  have hN := JSVal.looseEqNull_eq_false_of_isArray hA
  have htN := JSVal.looseEqNull_eq_false_of_isArray htA
  have hlN := JSVal.looseEqNull_eq_false_of_isArray hlA.1
  rw [construct_spec]
  have hf : firstFailingBlending o = none := by
    unfold firstFailingBlending blendingChecks
    simp [List.find?, hN, hA, hL, htN, htA, htL, hlN, hlA.2]
  rw [hf]

/-- C1 counterexample: with a valid color and a valid two-element
thresholdValues, the string "ab" — not a sequence in the spec's sense,
since `Array.isArray` rejects it — supplied as limitValues does not make
construction fail with a `ShapeError`: the defective is-array check tests
thresholdValues, the string's length property equals 2, and construction
succeeds, spreading the string's characters into the stored field. -/
theorem blending_shapeError_counterexample :
    (JSVal.str "ab").isArray = false ∧
    BlendingInformation.construct
      { opticalPathIdentifier := JSVal.str "Cy5",
        color := JSVal.arr [JSVal.num 255, JSVal.num 0, JSVal.num 0],
        opacity := JSVal.num 1,
        thresholdValues := JSVal.arr [JSVal.num 0, JSVal.num 1],
        limitValues := JSVal.str "ab",
        visible := JSVal.bool true } =
      Except.ok
        { opticalPathIdentifier := JSVal.str "Cy5",
          color := [JSVal.num 255, JSVal.num 0, JSVal.num 0],
          opacity := JSVal.num 1,
          thresholdValues := [JSVal.num 0, JSVal.num 1],
          limitValues := [JSVal.str "a", JSVal.str "b"],
          visible := JSVal.bool true } :=
  ⟨rfl, rfl⟩

/-- C1 (amended): a supplied color that is not a sequence, or a sequence of
the wrong element count, fails with a `ShapeError`; likewise
thresholdValues once color is valid, and a limitValues sequence of the
wrong count once both are valid. A supplied non-sequence limitValues (with
color and thresholdValues valid) fails with a `ShapeError` exactly when its
length property differs from 2; when that property equals 2 (e.g. a string
of two UTF-16 units) the defective is-array check lets construction
succeed. -/
theorem blending_shapeError_amended (o : BlendingOptions) :
    (o.color.looseEqNull = false → o.color.isArray = false →
      failsShape (BlendingInformation.construct o)) ∧
    (o.color.isArray = true → o.color.lengthProp ≠ some 3 →
      failsShape (BlendingInformation.construct o)) ∧
    (colorShapeOK o = true → o.thresholdValues.looseEqNull = false →
      o.thresholdValues.isArray = false →
      failsShape (BlendingInformation.construct o)) ∧
    (colorShapeOK o = true → o.thresholdValues.isArray = true →
      o.thresholdValues.lengthProp ≠ some 2 →
      failsShape (BlendingInformation.construct o)) ∧
    (colorShapeOK o = true → thresholdShapeOK o = true →
      o.limitValues.isArray = true → o.limitValues.lengthProp ≠ some 2 →
      failsShape (BlendingInformation.construct o)) ∧
    (colorShapeOK o = true → thresholdShapeOK o = true →
      o.limitValues.looseEqNull = false → o.limitValues.isArray = false →
      ((failsShape (BlendingInformation.construct o) ↔
          o.limitValues.lengthProp ≠ some 2) ∧
        (o.limitValues.lengthProp = some 2 →
          BlendingInformation.construct o =
            Except.ok (mkStoredBlending o)))) := by
  refine ⟨?_, ?_, ?_, ?_, ?_, ?_⟩
  · intro hn ha
    have hf : firstFailingBlending o =
        some "Color must be provided as an array." := by
      unfold firstFailingBlending blendingChecks
      simp [List.find?, hn, ha]
    exact ⟨_, by rw [construct_spec, hf], by decide⟩
  · intro ha hl
    have hn := JSVal.looseEqNull_eq_false_of_isArray ha
    have hlb : (o.color.lengthProp != some 3) = true := by simpa using hl
    have hf : firstFailingBlending o =
        some "An RGB color triplet must be provided." := by
      unfold firstFailingBlending blendingChecks
      simp [List.find?, hn, ha, hlb]
    exact ⟨_, by rw [construct_spec, hf], by decide⟩
  · intro hc htn hta
    obtain ⟨hA, hL⟩ := colorShapeOK_spec hc
    have hN := JSVal.looseEqNull_eq_false_of_isArray hA
    have hf : firstFailingBlending o =
        some "Threshold values must be provided as an array." := by
      unfold firstFailingBlending blendingChecks
      simp [List.find?, hN, hA, hL, htn, hta]
    exact ⟨_, by rw [construct_spec, hf], by decide⟩
  · intro hc hta htl
    obtain ⟨hA, hL⟩ := colorShapeOK_spec hc
    have hN := JSVal.looseEqNull_eq_false_of_isArray hA
    have htn := JSVal.looseEqNull_eq_false_of_isArray hta
    have htlb : (o.thresholdValues.lengthProp != some 2) = true := by
      simpa using htl
    have hf : firstFailingBlending o =
        some "Two threshold values must be provided." := by
      unfold firstFailingBlending blendingChecks
      simp [List.find?, hN, hA, hL, htn, hta, htlb]
    exact ⟨_, by rw [construct_spec, hf], by decide⟩
  · intro hc ht hla hll
    obtain ⟨hA, hL⟩ := colorShapeOK_spec hc
    obtain ⟨htA, htL⟩ := thresholdShapeOK_spec ht
    have hN := JSVal.looseEqNull_eq_false_of_isArray hA
    have htN := JSVal.looseEqNull_eq_false_of_isArray htA
    have hlN := JSVal.looseEqNull_eq_false_of_isArray hla
    have hllb : (o.limitValues.lengthProp != some 2) = true := by
      simpa using hll
    have hf : firstFailingBlending o =
        some "Two limit values must be provided." := by
      unfold firstFailingBlending blendingChecks
      simp [List.find?, hN, hA, hL, htN, htA, htL, hlN, hllb]
    exact ⟨_, by rw [construct_spec, hf], by decide⟩
  · intro hc ht hln hla
    obtain ⟨hA, hL⟩ := colorShapeOK_spec hc
    obtain ⟨htA, htL⟩ := thresholdShapeOK_spec ht
    have hN := JSVal.looseEqNull_eq_false_of_isArray hA
    have htN := JSVal.looseEqNull_eq_false_of_isArray htA
    by_cases hlp : o.limitValues.lengthProp = some 2
    · have hok : BlendingInformation.construct o =
          Except.ok (mkStoredBlending o) := by
        rw [construct_spec]
        have hf : firstFailingBlending o = none := by
          unfold firstFailingBlending blendingChecks
          simp [List.find?, hN, hA, hL, htN, htA, htL, hln, hlp]
        rw [hf]
      constructor
      · constructor
        · rintro ⟨e, he, _⟩
          rw [hok] at he
          simp at he
        · intro hne
          exact absurd hlp hne
      · intro _
        exact hok
    · have hllb : (o.limitValues.lengthProp != some 2) = true := by
        simpa using hlp
      have hf : firstFailingBlending o =
          some "Two limit values must be provided." := by
        unfold firstFailingBlending blendingChecks
        simp [List.find?, hN, hA, hL, htN, htA, htL, hln, hllb]
      constructor
      · constructor
        · intro _
          exact hlp
        · intro _
          exact ⟨_, by rw [construct_spec, hf], by decide⟩
      · intro hcontra
        exact absurd hcontra hlp

/-- C1 amended witness: a non-array color fails with a `ShapeError`, and a
non-array limitValues of length property 3 fails with a `ShapeError` while
one of length property 2 is accepted. -/
theorem blending_shapeError_amended_witness :
    failsShape (BlendingInformation.construct
      { opticalPathIdentifier := JSVal.str "Cy5", color := JSVal.num 5,
        opacity := JSVal.num 1,
        thresholdValues := JSVal.arr [JSVal.num 0, JSVal.num 1],
        limitValues := JSVal.arr [JSVal.num 0, JSVal.num 65535],
        visible := JSVal.bool true }) ∧
    failsShape (BlendingInformation.construct
      { opticalPathIdentifier := JSVal.str "Cy5",
        color := JSVal.arr [JSVal.num 255, JSVal.num 0, JSVal.num 0],
        opacity := JSVal.num 1,
        thresholdValues := JSVal.arr [JSVal.num 0, JSVal.num 1],
        limitValues := JSVal.str "abc",
        visible := JSVal.bool true }) :=
  ⟨(blending_shapeError_amended
      { opticalPathIdentifier := JSVal.str "Cy5", color := JSVal.num 5,
        opacity := JSVal.num 1,
        thresholdValues := JSVal.arr [JSVal.num 0, JSVal.num 1],
        limitValues := JSVal.arr [JSVal.num 0, JSVal.num 65535],
        visible := JSVal.bool true }).1 rfl rfl,
   ((blending_shapeError_amended
      { opticalPathIdentifier := JSVal.str "Cy5",
        color := JSVal.arr [JSVal.num 255, JSVal.num 0, JSVal.num 0],
        opacity := JSVal.num 1,
        thresholdValues := JSVal.arr [JSVal.num 0, JSVal.num 1],
        limitValues := JSVal.str "abc",
        visible := JSVal.bool true }).2.2.2.2.2 rfl rfl rfl
          rfl).1.mpr (by decide)⟩

lemma allChecksPass_of_firstFailing_none {o : BlendingOptions}
    (h : firstFailingBlending o = none) :
    o.color.isArray = true ∧ o.color.lengthProp = some 3 ∧
    o.thresholdValues.isArray = true ∧
    o.thresholdValues.lengthProp = some 2 ∧
    o.limitValues.lengthProp = some 2 := by
  unfold firstFailingBlending at h
  rw [Option.map_eq_none'] at h
  rw [List.find?_eq_none] at h
  refine ⟨?_, ?_, ?_, ?_, ?_⟩
  · have := h (!o.color.isArray, "Color must be provided as an array.")
      (by unfold blendingChecks; simp)
    simpa using this
  · have := h (o.color.lengthProp != some 3,
      "An RGB color triplet must be provided.")
      (by unfold blendingChecks; simp)
    simpa using this
  · have := h (!o.thresholdValues.isArray,
      "Threshold values must be provided as an array.")
      (by unfold blendingChecks; simp)
    simpa using this
  · have := h (o.thresholdValues.lengthProp != some 2,
      "Two threshold values must be provided.")
      (by unfold blendingChecks; simp)
    simpa using this
  · have := h (o.limitValues.lengthProp != some 2,
      "Two limit values must be provided.")
      (by unfold blendingChecks; simp)
    simpa using this

/-- C6 counterexample: the invariant `limitValues.length === 2` does not
hold of every successfully constructed instance: a single-astral-character
string has length property 2 (two UTF-16 units), so it passes the length
check, its spread stores one element, and construction succeeds with a
stored limitValues of length 1. -/
theorem blending_arity_counterexample :
    BlendingInformation.construct
      { opticalPathIdentifier := JSVal.str "Cy5",
        color := JSVal.arr [JSVal.num 255, JSVal.num 0, JSVal.num 0],
        opacity := JSVal.num 1,
        thresholdValues := JSVal.arr [JSVal.num 0, JSVal.num 1],
        limitValues := JSVal.str "𐀀",
        visible := JSVal.bool true } =
      Except.ok
        { opticalPathIdentifier := JSVal.str "Cy5",
          color := [JSVal.num 255, JSVal.num 0, JSVal.num 0],
          opacity := JSVal.num 1,
          thresholdValues := [JSVal.num 0, JSVal.num 1],
          limitValues := [JSVal.str "𐀀"],
          visible := JSVal.bool true } ∧
    ([JSVal.str "𐀀"] : List JSVal).length ≠ 2 :=
  ⟨rfl, by decide⟩

/-- C6 (amended): with the other fields valid, a color array of length 2 or
4 causes a `ShapeError` while length 3 succeeds, and a thresholdValues or
limitValues array of length 1 or 3 causes a `ShapeError` while length 2
succeeds. After a successful construction, `color.length = 3` and
`thresholdValues.length = 2` always hold, and `limitValues.length = 2`
holds whenever the supplied limitValues was an array; a non-array
limitValues accepted through the defective is-array check may store a
different element count. -/
theorem blending_arity (o : BlendingOptions) :
    (∀ cl, o.color = JSVal.arr cl → (cl.length = 2 ∨ cl.length = 4) →
      failsShape (BlendingInformation.construct o)) ∧
    (∀ tl, colorShapeOK o = true → o.thresholdValues = JSVal.arr tl →
      (tl.length = 1 ∨ tl.length = 3) →
      failsShape (BlendingInformation.construct o)) ∧
    (∀ ll, colorShapeOK o = true → thresholdShapeOK o = true →
      o.limitValues = JSVal.arr ll → (ll.length = 1 ∨ ll.length = 3) →
      failsShape (BlendingInformation.construct o)) ∧
    (colorShapeOK o = true → thresholdShapeOK o = true →
      limitShapeOK o = true →
      BlendingInformation.construct o = Except.ok (mkStoredBlending o)) ∧
    (∀ b, BlendingInformation.construct o = Except.ok b →
      b.color.length = 3 ∧ b.thresholdValues.length = 2 ∧
      (o.limitValues.isArray = true → b.limitValues.length = 2)) := by
  refine ⟨?_, ?_, ?_, ?_, ?_⟩
  · intro cl hcl hlen
    have ha : o.color.isArray = true := by rw [hcl]; rfl
    have hn := JSVal.looseEqNull_eq_false_of_isArray ha
    have hb : (o.color.lengthProp != some 3) = true := by
      rw [hcl]
      rcases hlen with h | h <;> simp [JSVal.lengthProp, h]
    have hf : firstFailingBlending o =
        some "An RGB color triplet must be provided." := by
      unfold firstFailingBlending blendingChecks
      simp [List.find?, hn, ha, hb]
    exact ⟨_, by rw [construct_spec, hf], by decide⟩
  · intro tl hc htl hlen
    obtain ⟨hA, hL⟩ := colorShapeOK_spec hc
    have hN := JSVal.looseEqNull_eq_false_of_isArray hA
    have hta : o.thresholdValues.isArray = true := by rw [htl]; rfl
    have htn := JSVal.looseEqNull_eq_false_of_isArray hta
    have htb : (o.thresholdValues.lengthProp != some 2) = true := by
      rw [htl]
      rcases hlen with h | h <;> simp [JSVal.lengthProp, h]
    have hf : firstFailingBlending o =
        some "Two threshold values must be provided." := by
      unfold firstFailingBlending blendingChecks
      simp [List.find?, hN, hA, hL, htn, hta, htb]
    exact ⟨_, by rw [construct_spec, hf], by decide⟩
  · intro ll hc ht hll hlen
    obtain ⟨hA, hL⟩ := colorShapeOK_spec hc
    obtain ⟨htA, htL⟩ := thresholdShapeOK_spec ht
    have hN := JSVal.looseEqNull_eq_false_of_isArray hA
    have htN := JSVal.looseEqNull_eq_false_of_isArray htA
    have hla : o.limitValues.isArray = true := by rw [hll]; rfl
    have hln := JSVal.looseEqNull_eq_false_of_isArray hla
    have hlb : (o.limitValues.lengthProp != some 2) = true := by
      rw [hll]
      rcases hlen with h | h <;> simp [JSVal.lengthProp, h]
    have hf : firstFailingBlending o =
        some "Two limit values must be provided." := by
      unfold firstFailingBlending blendingChecks
      simp [List.find?, hN, hA, hL, htN, htA, htL, hln, hlb]
    exact ⟨_, by rw [construct_spec, hf], by decide⟩
  · exact construct_ok_of_allOK
  · intro b hb
    rw [construct_spec] at hb
    cases hf : firstFailingBlending o <;> rw [hf] at hb
    · obtain rfl : mkStoredBlending o = b := by simpa using hb
      obtain ⟨hA, hL, htA, htL, hlL⟩ := allChecksPass_of_firstFailing_none hf
      obtain ⟨cl, hcl⟩ := JSVal.eq_arr_of_isArray hA
      obtain ⟨tl, htl⟩ := JSVal.eq_arr_of_isArray htA
      refine ⟨?_, ?_, ?_⟩
      · simp only [mkStoredBlending]
        rw [hcl] at hL ⊢
        simp [JSVal.lengthProp] at hL
        simp [JSVal.storedCopy, JSVal.spreadElems]
        omega
      · simp only [mkStoredBlending]
        rw [htl] at htL ⊢
        simp [JSVal.lengthProp] at htL
        simp [JSVal.storedCopy, JSVal.spreadElems]
        omega
      · intro hlA
        obtain ⟨ll, hll⟩ := JSVal.eq_arr_of_isArray hlA
        simp only [mkStoredBlending]
        rw [hll] at hlL ⊢
        simp [JSVal.lengthProp] at hlL
        simp [JSVal.storedCopy, JSVal.spreadElems]
        omega
    · simp at hb

/-- C6 witness: the spec's scenario 4 (four-element color) fails with a
`ShapeError`, a one-element limitValues array fails with a `ShapeError`,
and scenario 3 (arities 3/2/2) succeeds; the invariant holds of the
successful instance. -/
theorem blending_arity_witness :
    failsShape (BlendingInformation.construct
      { opticalPathIdentifier := JSVal.str "Cy5",
        color := JSVal.arr [JSVal.num 255, JSVal.num 0, JSVal.num 0,
                            JSVal.num 0],
        opacity := JSVal.num 1,
        thresholdValues := JSVal.arr [JSVal.num 0, JSVal.num 1],
        limitValues := JSVal.arr [JSVal.num 0, JSVal.num 65535],
        visible := JSVal.bool true }) ∧
    failsShape (BlendingInformation.construct
      { opticalPathIdentifier := JSVal.str "Cy5",
        color := JSVal.arr [JSVal.num 255, JSVal.num 0, JSVal.num 0],
        opacity := JSVal.num 1,
        thresholdValues := JSVal.arr [JSVal.num 0, JSVal.num 1],
        limitValues := JSVal.arr [JSVal.num 0],
        visible := JSVal.bool true }) ∧
    BlendingInformation.construct
      { opticalPathIdentifier := JSVal.str "Cy5",
        color := JSVal.arr [JSVal.num 255, JSVal.num 0, JSVal.num 0],
        opacity := JSVal.num 1,
        thresholdValues := JSVal.arr [JSVal.num 0, JSVal.num 1],
        limitValues := JSVal.arr [JSVal.num 0, JSVal.num 65535],
        visible := JSVal.bool true } =
      Except.ok
        { opticalPathIdentifier := JSVal.str "Cy5",
          color := [JSVal.num 255, JSVal.num 0, JSVal.num 0],
          opacity := JSVal.num 1,
          thresholdValues := [JSVal.num 0, JSVal.num 1],
          limitValues := [JSVal.num 0, JSVal.num 65535],
          visible := JSVal.bool true } :=
  ⟨(blending_arity
      { opticalPathIdentifier := JSVal.str "Cy5",
        color := JSVal.arr [JSVal.num 255, JSVal.num 0, JSVal.num 0,
                            JSVal.num 0],
        opacity := JSVal.num 1,
        thresholdValues := JSVal.arr [JSVal.num 0, JSVal.num 1],
        limitValues := JSVal.arr [JSVal.num 0, JSVal.num 65535],
        visible := JSVal.bool true }).1 _ rfl (Or.inr rfl),
   (blending_arity
      { opticalPathIdentifier := JSVal.str "Cy5",
        color := JSVal.arr [JSVal.num 255, JSVal.num 0, JSVal.num 0],
        opacity := JSVal.num 1,
        thresholdValues := JSVal.arr [JSVal.num 0, JSVal.num 1],
        limitValues := JSVal.arr [JSVal.num 0],
        visible := JSVal.bool true }).2.2.1 _ rfl rfl rfl (Or.inl rfl),
   (blending_arity
      { opticalPathIdentifier := JSVal.str "Cy5",
        color := JSVal.arr [JSVal.num 255, JSVal.num 0, JSVal.num 0],
        opacity := JSVal.num 1,
        thresholdValues := JSVal.arr [JSVal.num 0, JSVal.num 1],
        limitValues := JSVal.arr [JSVal.num 0, JSVal.num 65535],
        visible := JSVal.bool true }).2.2.2.1 rfl rfl rfl⟩

/-- Reference-model values: as `JSVal`, except that an array value is a
reference into a heap of array cells, so aliasing and external mutation of
the caller's arrays are expressible. -/
inductive HVal where
  | undef : HVal
  | null : HVal
  | bool : Bool → HVal
  | num : Int → HVal
  | str : String → HVal
  | arrRef : Nat → HVal

/-- A heap of array cells; a reference is an index and allocation appends a
fresh cell. -/
structure Heap where
  cells : List (List HVal)

/-- The contents of the array cell a reference points to. -/
def Heap.get (h : Heap) (r : Nat) : List HVal := h.cells.getD r []

/-- Overwriting the contents of the array cell a reference points to:
what a caller does when mutating its original array after construction. -/
def Heap.set (h : Heap) (r : Nat) (xs : List HVal) : Heap :=
  ⟨h.cells.set r xs⟩

/-- Allocating a fresh array cell, as a `[...x]` spread does. -/
def Heap.alloc (h : Heap) (xs : List HVal) : Heap × Nat :=
  (⟨h.cells ++ [xs]⟩, h.cells.length)

/-- Loose equality with null in the reference model. -/
def HVal.looseEqNull : HVal → Bool
  | .undef => true
  | .null => true
  | _ => false

/-- `Array.isArray` in the reference model. -/
def HVal.isArray : HVal → Bool
  | .arrRef _ => true
  | _ => false

/-- The `.length` property in the reference model. -/
def HVal.lengthProp (h : Heap) : HVal → Option Int
  | .arrRef r => some (h.get r).length
  | .str s => some (jsStringLength s)
  | _ => none

/-- Spread `[...v]` in the reference model: allocates a fresh cell holding
a copy of the spread elements. -/
def hvalSpread (h : Heap) : HVal → Option (Heap × Nat)
  | .arrRef r => some (h.alloc (h.get r))
  | .str s => some (h.alloc (s.data.map (fun c => HVal.str (String.mk [c]))))
  | _ => none

/-- The `BlendingInformation` options record in the reference model. -/
structure BlendingOptionsRef where
  opticalPathIdentifier : HVal
  color : HVal
  opacity : HVal
  thresholdValues : HVal
  limitValues : HVal
  visible : HVal

/-- A constructed instance in the reference model: the three array-shaped
fields are references to the cells the constructor allocated. -/
structure BlendingInformationRef where
  opticalPathIdentifier : HVal
  color : Nat
  opacity : HVal
  thresholdValues : Nat
  limitValues : Nat
  visible : HVal

/-- The `BlendingInformation` constructor in the reference model: the same
checks in the same source order as `BlendingInformation.construct`
(including the defective eighth check), with each `[...x]` spread
allocating a fresh cell in the heap. -/
def BlendingInformation.constructRef (h : Heap) (o : BlendingOptionsRef) :
    Except JSException (Heap × BlendingInformationRef) :=
  if o.color.looseEqNull then
    .error (.thrown "Color is required.")
  else if !o.color.isArray then
    .error (.thrown "Color must be provided as an array.")
  else if o.color.lengthProp h != some 3 then
    .error (.thrown "An RGB color triplet must be provided.")
  else match hvalSpread h o.color with
  | none => .error .typeError
  | some (h1, colorRef) =>
    if o.thresholdValues.looseEqNull then
      .error (.thrown "Threshold values are required.")
    else if !o.thresholdValues.isArray then
      .error (.thrown "Threshold values must be provided as an array.")
    else if o.thresholdValues.lengthProp h1 != some 2 then
      .error (.thrown "Two threshold values must be provided.")
    else match hvalSpread h1 o.thresholdValues with
    | none => .error .typeError
    | some (h2, thresholdRef) =>
      if o.limitValues.looseEqNull then
        .error (.thrown "Limit values are required.")
      else if !o.thresholdValues.isArray then
        .error (.thrown "Limit values must be provided as an array.")
      else if o.limitValues.lengthProp h2 != some 2 then
        .error (.thrown "Two limit values must be provided.")
      else match hvalSpread h2 o.limitValues with
      | none => .error .typeError
      | some (h3, limitRef) =>
        .ok (h3, { opticalPathIdentifier := o.opticalPathIdentifier,
                   color := colorRef,
                   opacity := o.opacity,
                   thresholdValues := thresholdRef,
                   limitValues := limitRef,
                   visible := o.visible })

lemma hvalSpread_arrRef (h : Heap) (q : Nat) :
    hvalSpread h (HVal.arrRef q) =
      some (Heap.mk (h.cells ++ [h.get q]), h.cells.length) := rfl

lemma hvalSpread_some_shape {h : Heap} {v : HVal} {hh : Heap} {r : Nat}
    (hsp : hvalSpread h v = some (hh, r)) :
    ∃ xs, hh = Heap.mk (h.cells ++ [xs]) ∧ r = h.cells.length := by
  cases v <;> simp [hvalSpread, Heap.alloc] at hsp
  case str s =>
    exact ⟨_, hsp.1.symm, hsp.2.symm⟩
  case arrRef q =>
    exact ⟨_, hsp.1.symm, hsp.2.symm⟩

lemma Heap.get_append_lt (h : Heap) (suffix : List (List HVal)) {r : Nat}
    (hr : r < h.cells.length) :
    (Heap.mk (h.cells ++ suffix)).get r = h.get r := by
  unfold Heap.get
  simp [List.getD, List.getElem?_append, hr]

lemma Heap.get_set_ne (h : Heap) (r q : Nat) (xs : List HVal)
    (hne : q ≠ r) : (h.set r xs).get q = h.get q := by
  unfold Heap.set Heap.get
  simp [List.getD, List.getElem?_set_ne (Ne.symm hne)]

lemma Heap.get_triple (h : Heap) (a b c : List HVal) :
    (Heap.mk (h.cells ++ [a, b, c])).get h.cells.length = a ∧
    (Heap.mk (h.cells ++ [a, b, c])).get (h.cells.length + 1) = b ∧
    (Heap.mk (h.cells ++ [a, b, c])).get (h.cells.length + 2) = c := by
  unfold Heap.get
  refine ⟨?_, ?_, ?_⟩
  · simp [List.getD,
      List.getElem?_append_right (Nat.le_refl h.cells.length)]
  · simp [List.getD,
      List.getElem?_append_right (Nat.le_add_right h.cells.length 1),
      Nat.add_sub_cancel_left]
  · simp [List.getD,
      List.getElem?_append_right (Nat.le_add_right h.cells.length 2),
      Nat.add_sub_cancel_left]

/-- C7: for every successful `BlendingInformation` construction (reference
model), each stored array-shaped field is an independent copy of the
supplied array: the stored reference differs from the caller's reference,
its cell equals the caller's cell at construction time, and overwriting the
caller's cell afterwards leaves the stored cell unchanged. -/
theorem blending_defensive_copies (h : Heap) (o : BlendingOptionsRef)
    (hp : Heap) (b : BlendingInformationRef)
    (hok : BlendingInformation.constructRef h o = Except.ok (hp, b)) :
    (∀ r, r < h.cells.length → o.color = HVal.arrRef r →
      b.color ≠ r ∧ hp.get b.color = h.get r ∧
      ∀ xs, (hp.set r xs).get b.color = hp.get b.color) ∧
    (∀ r, r < h.cells.length → o.thresholdValues = HVal.arrRef r →
      b.thresholdValues ≠ r ∧ hp.get b.thresholdValues = h.get r ∧
      ∀ xs, (hp.set r xs).get b.thresholdValues =
        hp.get b.thresholdValues) ∧
    (∀ r, r < h.cells.length → o.limitValues = HVal.arrRef r →
      b.limitValues ≠ r ∧ hp.get b.limitValues = h.get r ∧
      ∀ xs, (hp.set r xs).get b.limitValues = hp.get b.limitValues) := by
  unfold BlendingInformation.constructRef at hok
  split at hok
  · simp at hok
  · split at hok
    · simp at hok
    · split at hok
      · simp at hok
      · split at hok
        · simp at hok
        · rename_i h1 cref heqc
          split at hok
          · simp at hok
          · split at hok
            · simp at hok
            · split at hok
              · simp at hok
              · split at hok
                · simp at hok
                · rename_i h2 tref heqt
                  split at hok
                  · simp at hok
                  · split at hok
                    · simp at hok
                    · split at hok
                      · simp at hok
                      · rename_i h3 lref heql
                        rw [Except.ok.injEq, Prod.mk.injEq] at hok
                        obtain ⟨rfl, rfl⟩ := hok
                        obtain ⟨xs1, rfl, rfl⟩ :=
                          hvalSpread_some_shape heqc
                        obtain ⟨xs2, rfl, rfl⟩ :=
                          hvalSpread_some_shape heqt
                        obtain ⟨xs3, rfl, rfl⟩ :=
                          hvalSpread_some_shape heql
                        have hassoc :
                            ((h.cells ++ [xs1]) ++ [xs2]) ++ [xs3] =
                              h.cells ++ [xs1, xs2, xs3] := by simp
                        refine ⟨?_, ?_, ?_⟩
                        · intro r hr hcol
                          rw [hcol, hvalSpread_arrRef] at heqc
                          simp at heqc
                          refine ⟨?_, ?_, ?_⟩
                          · show h.cells.length ≠ r
                            omega
                          · show (Heap.mk
                              (((h.cells ++ [xs1]) ++ [xs2]) ++
                                [xs3])).get h.cells.length = h.get r
                            rw [hassoc, (Heap.get_triple h xs1 xs2 xs3).1,
                                ← heqc]
                          · intro xs
                            exact Heap.get_set_ne _ _ _ _
                              (by show h.cells.length ≠ r; omega)
                        · intro r hr hthr
                          rw [hthr, hvalSpread_arrRef] at heqt
                          simp at heqt
                          have hget : (Heap.mk (h.cells ++ [xs1])).get r =
                              h.get r := Heap.get_append_lt h [xs1] hr
                          have hidx : (h.cells ++ [xs1]).length =
                              h.cells.length + 1 := by simp
                          refine ⟨?_, ?_, ?_⟩
                          · show (h.cells ++ [xs1]).length ≠ r
                            simp
                            omega
                          · show (Heap.mk
                              (((h.cells ++ [xs1]) ++ [xs2]) ++
                                [xs3])).get (h.cells ++ [xs1]).length =
                              h.get r
                            rw [hassoc, hidx,
                                (Heap.get_triple h xs1 xs2 xs3).2.1,
                                ← heqt, hget]
                          · intro xs
                            exact Heap.get_set_ne _ _ _ _
                              (by show (h.cells ++ [xs1]).length ≠ r
                                  simp; omega)
                        · intro r hr hlim
                          rw [hlim, hvalSpread_arrRef] at heql
                          simp at heql
                          have hget : (Heap.mk
                              (h.cells ++ [xs1, xs2])).get r =
                              h.get r := Heap.get_append_lt h [xs1, xs2] hr
                          have hidx : ((h.cells ++ [xs1]) ++
                              [xs2]).length = h.cells.length + 2 := by
                            simp
                          refine ⟨?_, ?_, ?_⟩
                          · show ((h.cells ++ [xs1]) ++ [xs2]).length ≠ r
                            simp
                            omega
                          · show (Heap.mk
                              (((h.cells ++ [xs1]) ++ [xs2]) ++
                                [xs3])).get
                                ((h.cells ++ [xs1]) ++ [xs2]).length =
                              h.get r
                            rw [hassoc, hidx,
                                (Heap.get_triple h xs1 xs2 xs3).2.2,
                                ← heql, hget]
                          · intro xs
                            exact Heap.get_set_ne _ _ _ _
                              (by show ((h.cells ++ [xs1]) ++
                                    [xs2]).length ≠ r
                                  simp; omega)

/-- C7 witness: a concrete three-cell heap; the stored color reference (3)
differs from the caller's (0), its cell equals the caller's cell, and
overwriting the caller's cell leaves the stored cell unchanged. -/
theorem blending_defensive_copies_witness :
    (3 : Nat) ≠ 0 ∧
    (Heap.mk [[HVal.num 10, HVal.num 20, HVal.num 30],
              [HVal.num 0, HVal.num 1], [HVal.num 0, HVal.num 9],
              [HVal.num 10, HVal.num 20, HVal.num 30],
              [HVal.num 0, HVal.num 1],
              [HVal.num 0, HVal.num 9]]).get 3 =
      (Heap.mk [[HVal.num 10, HVal.num 20, HVal.num 30],
                [HVal.num 0, HVal.num 1],
                [HVal.num 0, HVal.num 9]]).get 0 ∧
    ((Heap.mk [[HVal.num 10, HVal.num 20, HVal.num 30],
               [HVal.num 0, HVal.num 1], [HVal.num 0, HVal.num 9],
               [HVal.num 10, HVal.num 20, HVal.num 30],
               [HVal.num 0, HVal.num 1],
               [HVal.num 0, HVal.num 9]]).set 0 [HVal.num 99]).get 3 =
      (Heap.mk [[HVal.num 10, HVal.num 20, HVal.num 30],
                [HVal.num 0, HVal.num 1], [HVal.num 0, HVal.num 9],
                [HVal.num 10, HVal.num 20, HVal.num 30],
                [HVal.num 0, HVal.num 1],
                [HVal.num 0, HVal.num 9]]).get 3 := by
  have h := (blending_defensive_copies
    (Heap.mk [[HVal.num 10, HVal.num 20, HVal.num 30],
              [HVal.num 0, HVal.num 1], [HVal.num 0, HVal.num 9]])
    { opticalPathIdentifier := HVal.str "Cy5", color := HVal.arrRef 0,
      opacity := HVal.num 1, thresholdValues := HVal.arrRef 1,
      limitValues := HVal.arrRef 2, visible := HVal.bool true }
    (Heap.mk [[HVal.num 10, HVal.num 20, HVal.num 30],
              [HVal.num 0, HVal.num 1], [HVal.num 0, HVal.num 9],
              [HVal.num 10, HVal.num 20, HVal.num 30],
              [HVal.num 0, HVal.num 1], [HVal.num 0, HVal.num 9]])
    { opticalPathIdentifier := HVal.str "Cy5", color := 3,
      opacity := HVal.num 1, thresholdValues := 4,
      limitValues := 5, visible := HVal.bool true }
    rfl).1 0 (by decide) rfl
  exact ⟨h.1, h.2.1, h.2.2 [HVal.num 99]⟩

/-- C9 witness: a concrete successful construction has no error, so the
exclusivity applies at a real input. -/
theorem construction_atomic_witness :
    ¬ ∃ e, Channel.construct
      { opticalPathIdentifier := JSVal.str "Cy5",
        studyInstanceUID := JSVal.str "1.2.3",
        seriesInstanceUID := JSVal.str "1.2.3.4",
        sopInstanceUIDs := JSVal.arr [JSVal.str "1.2.3.4.5"] } =
      Except.error e :=
  (construction_atomic
    { opticalPathIdentifier := JSVal.undef, color := JSVal.undef,
      opacity := JSVal.undef, thresholdValues := JSVal.undef,
      limitValues := JSVal.undef, visible := JSVal.undef }
    { opticalPathIdentifier := JSVal.str "Cy5",
      studyInstanceUID := JSVal.str "1.2.3",
      seriesInstanceUID := JSVal.str "1.2.3.4",
      sopInstanceUIDs := JSVal.arr [JSVal.str "1.2.3.4.5"] }).2.mp
    ⟨{ opticalPathIdentifier := JSVal.str "Cy5",
       studyInstanceUID := JSVal.str "1.2.3",
       seriesInstanceUID := JSVal.str "1.2.3.4",
       sopInstanceUIDs := JSVal.arr [JSVal.str "1.2.3.4.5"] }, rfl⟩
